import Mathlib

/-!
Verification of the ACI 211.1 mix-design calculator (`calculate_mix` in
`src/main.py`) of the concrete_mix-optimizer repository.

The calculator is shallowly embedded over exact rationals (`ℚ`): every
numeric literal of the source is a decimal, represented exactly.  Fallible
constructs of the source (dictionary lookups that can raise `KeyError`,
divisions that can raise `ZeroDivisionError`, both swallowed by the
function's outer `except` which makes the invocation return `None`) are
modelled with `Option`: any such error yields `none`.
-/

/-- Python's `round(q, n)` for the values arising here.  Python rounds ties
to even on the underlying binary float; no value checked in this file falls
on a tie, so round-half-up over `ℚ` is used. -/
def roundTo (n : ℕ) (q : ℚ) : ℚ := ((q * 10 ^ n + 1 / 2).floor : ℚ) / 10 ^ n

/-- Keys of the `ACI_EXPOSURE` dictionary (`src/main.py` line 191). -/
inductive Exposure
  | Mild
  | Moderate
  | Severe
deriving DecidableEq

/-- Keys of the `CONSTRUCTION_TYPES` dictionary (`src/main.py` line 96). -/
inductive ConstructionType
  | TraditionalCastInPlace
  | PrecastElements
  | ModularConstruction
  | TiltUpPanels
deriving DecidableEq

/-- One row of `ACI_EXPOSURE`: `{"max_wcm": ..., "min_cement": ...}`. -/
structure ExposureLimits where
  max_wcm : ℚ
  min_cement : ℚ
deriving DecidableEq

/-- The `ACI_EXPOSURE` table (`src/main.py` lines 191-195). -/
def ACI_EXPOSURE : Exposure → ExposureLimits
  | .Mild => ⟨55 / 100, 250⟩
  | .Moderate => ⟨50 / 100, 300⟩
  | .Severe => ⟨45 / 100, 335⟩

/-- The `ACI_WATER_CONTENT` table (`src/main.py` lines 180-183), indexed by
air entrainment and maximum aggregate size; `none` models the `KeyError` a
size outside {10, 20, 40} raises. -/
def ACI_WATER_CONTENT (air_entrained : Bool) (size : ℕ) : Option ℚ :=
  if air_entrained then
    if size = 10 then some 180
    else if size = 20 then some 160
    else if size = 40 then some 140
    else none
  else
    if size = 10 then some 205
    else if size = 20 then some 185
    else if size = 40 then some 160
    else none

/-- The `ACI_CA_VOLUME` table (`src/main.py` lines 185-189), indexed by the
rounded fineness modulus and maximum aggregate size; `none` models the
`KeyError` raised when either key is absent. -/
def ACI_CA_VOLUME (fm_key : ℚ) (size : ℕ) : Option ℚ :=
  if fm_key = 24 / 10 then
    if size = 10 then some (44 / 100)
    else if size = 20 then some (60 / 100)
    else if size = 40 then some (68 / 100)
    else none
  else if fm_key = 27 / 10 then
    if size = 10 then some (49 / 100)
    else if size = 20 then some (66 / 100)
    else if size = 40 then some (74 / 100)
    else none
  else if fm_key = 30 / 10 then
    if size = 10 then some (53 / 100)
    else if size = 20 then some (72 / 100)
    else if size = 40 then some (80 / 100)
    else none
  else none

/-- The `try/except KeyError` around the coarse-aggregate volume lookup
(`src/main.py` lines 387-390): a miss on the rounded fineness-modulus key
falls back to the `2.7` row; a miss there too (size not tabulated)
propagates (`none`). -/
def lookupCaVol (fm_key : ℚ) (size : ℕ) : Option ℚ :=
  match ACI_CA_VOLUME fm_key size with
  | some v => some v
  | none => ACI_CA_VOLUME (27 / 10) size

/-- The `wcm_reduction` entries of `CONSTRUCTION_TYPES` (`src/main.py`
lines 96-123): present only for precast elements (0.05) and modular
construction (0.07). -/
def wcmReduction : ConstructionType → Option ℚ
  | .PrecastElements => some (5 / 100)
  | .ModularConstruction => some (7 / 100)
  | _ => none

/-- The parameters of `calculate_mix` (`src/main.py` lines 340-344).
`production_method` and `target_demould_time` are accepted by the source
function but never used in any computed quantity (they are copied verbatim
into the output dictionary), so they are omitted here. -/
structure MixInputs where
  fck : ℚ
  std_dev : ℚ
  exposure : Exposure
  max_agg_size : ℕ
  slump : ℚ
  air_entrained : Bool
  air_content : ℚ
  wcm : ℚ
  admixture : ℚ
  fm : ℚ
  sg_cement : ℚ
  sg_fa : ℚ
  sg_ca : ℚ
  unit_weight_ca : ℚ
  moist_fa : ℚ
  moist_ca : ℚ
  construction_type : ConstructionType
  early_strength_required : Bool
  steam_curing : Bool
deriving DecidableEq

/-- The intermediate quantities of one successful run of `calculate_mix`,
one field per local variable of `src/main.py` lines 348-411.  `water_pre`
is the value of the source's `water` variable after the slump and admixture
adjustments (line 377) and before the moisture deduction; `water_final` is
its value after line 408.  `advisory` records whether the `st.warning` of
line 366 fired. -/
structure MixIntermediates where
  ft : ℚ
  max_wcm : ℚ
  advisory : Bool
  base_water : ℚ
  water_pre : ℚ
  cement : ℚ
  ca_vol : ℚ
  ca_mass : ℚ
  cement_vol : ℚ
  water_vol : ℚ
  air_vol : ℚ
  ca_vol_abs : ℚ
  fa_vol : ℚ
  fa_mass : ℚ
  fa_mass_adj : ℚ
  ca_mass_adj : ℚ
  water_final : ℚ
  admix_amount : ℚ
deriving DecidableEq

/-- The numeric entries of the dictionary returned by `calculate_mix`
(`src/main.py` lines 432-444).  The string-valued passthrough entries
(construction type, production method) and the recommended-admixture list
carry no computed quantity and are omitted. -/
structure MixResult where
  target_mean_strength : ℚ
  water : ℚ
  cement : ℚ
  fine_aggregate : ℚ
  coarse_aggregate : ℚ
  air_content : ℚ
  admixture : ℚ
  demould_strength : ℚ
deriving DecidableEq

/-- The effective maximum water-cement ratio checked at `src/main.py`
lines 361-363: the exposure table's maximum, reduced by the construction
type's `wcm_reduction` when that entry exists. -/
def effectiveMaxWcm (i : MixInputs) : ℚ :=
  match wcmReduction i.construction_type with
  | some r => (ACI_EXPOSURE i.exposure).max_wcm - r
  | none => (ACI_EXPOSURE i.exposure).max_wcm

/-- The arithmetic of `calculate_mix` (`src/main.py` lines 348-411), given
the two table lookups that can fail (`base_water` from line 370, `ca_vol`
from lines 387-390).  Each `let` mirrors one source line in source order. -/
def mixCore (i : MixInputs) (base_water ca_vol : ℚ) : MixIntermediates :=
  let ft0 := i.fck + 134 / 100 * i.std_dev
  let ft := if i.early_strength_required then ft0 * (115 / 100) else ft0
  let max_wcm := effectiveMaxWcm i
  let advisory := decide (i.wcm > max_wcm)
  let water1 := base_water + (i.slump - 75) * (3 / 10)
  let water2 := if i.admixture = 0 then water1
    else water1 * (1 - min (15 / 100) (i.admixture * (5 / 100)))
  let cement0 := max (water2 / i.wcm) (ACI_EXPOSURE i.exposure).min_cement
  let cement := if i.early_strength_required then cement0 * (11 / 10) else cement0
  let ca_mass := ca_vol * i.unit_weight_ca
  let cement_vol := cement / (i.sg_cement * 1000)
  let water_vol := water2 / 1000
  let air_vol := if i.air_entrained then i.air_content / 100 else 1 / 100
  let ca_vol_abs := ca_mass / (i.sg_ca * 1000)
  let fa_vol := 1 - (cement_vol + water_vol + air_vol + ca_vol_abs)
  let fa_mass := fa_vol * i.sg_fa * 1000
  let fa_mass_adj := fa_mass * (1 + i.moist_fa / 100)
  let ca_mass_adj := ca_mass * (1 + i.moist_ca / 100)
  let water3 := water2 - (fa_mass * i.moist_fa / 100 + ca_mass * i.moist_ca / 100)
  let admix_amount := cement * i.admixture / 100
  { ft := ft, max_wcm := max_wcm, advisory := advisory, base_water := base_water,
    water_pre := water2, cement := cement, ca_vol := ca_vol, ca_mass := ca_mass,
    cement_vol := cement_vol, water_vol := water_vol, air_vol := air_vol,
    ca_vol_abs := ca_vol_abs, fa_vol := fa_vol, fa_mass := fa_mass,
    fa_mass_adj := fa_mass_adj, ca_mass_adj := ca_mass_adj,
    water_final := water3, admix_amount := admix_amount }

/-- One invocation of `calculate_mix` up to the intermediate quantities.
All the exceptions the source's outer `except` can see arise from raw
inputs alone: a `KeyError` from the water table (size outside {10,20,40}),
a `KeyError` from both coarse-aggregate rows, and a `ZeroDivisionError`
from `water / wcm`, `cement / (sg_cement * 1000)` or
`ca_mass / (sg_ca * 1000)`; any of them makes the source return `None`. -/
def mixIntermediates (i : MixInputs) : Option MixIntermediates :=
  match ACI_WATER_CONTENT i.air_entrained i.max_agg_size with
  | none => none
  | some base_water =>
    match lookupCaVol (roundTo 1 i.fm) i.max_agg_size with
    | none => none
    | some ca_vol =>
      if i.wcm = 0 ∨ i.sg_cement = 0 ∨ i.sg_ca = 0 then none
      else some (mixCore i base_water ca_vol)

/-- The returned dictionary (`src/main.py` lines 432-444): each numeric
entry is its intermediate value rounded for presentation; "Air Content" is
the rounded caller-supplied `air_content` argument; "Demould Strength"
follows lines 414-426 (10 MPa, 15 with early strength, 20 with steam
curing, steam winning because it is assigned last). -/
def toMixResult (i : MixInputs) (m : MixIntermediates) : MixResult :=
  { target_mean_strength := roundTo 2 m.ft
    water := roundTo 1 m.water_final
    cement := roundTo 1 m.cement
    fine_aggregate := roundTo 1 m.fa_mass_adj
    coarse_aggregate := roundTo 1 m.ca_mass_adj
    air_content := roundTo 1 i.air_content
    admixture := roundTo 2 m.admix_amount
    demould_strength :=
      if i.steam_curing then 20 else if i.early_strength_required then 15 else 10 }

/-- `calculate_mix` (`src/main.py` lines 340-447): `none` is the `None`
returned when the outer `except` catches an error. -/
def calculate_mix (i : MixInputs) : Option MixResult :=
  (mixIntermediates i).map (toMixResult i)

/-- The standard scenario of the spec's concrete test case (its defaults in
`src/main.py` lines 27-47, with the caller passing air content 0 because
air entrainment is off, as lines 296-297 do). -/
def scenario : MixInputs :=
  { fck := 25, std_dev := 5, exposure := .Moderate, max_agg_size := 20, slump := 75,
    air_entrained := false, air_content := 0, wcm := 1 / 2, admixture := 0,
    fm := 27 / 10, sg_cement := 315 / 100, sg_fa := 265 / 100, sg_ca := 265 / 100,
    unit_weight_ca := 1600, moist_fa := 2, moist_ca := 1,
    construction_type := .TraditionalCastInPlace,
    early_strength_required := false, steam_curing := false }

/-- The intermediates the standard scenario produces. -/
def scenarioInter : MixIntermediates := mixCore scenario 185 (33 / 50)

/-- The result the standard scenario produces. -/
def scenarioResult : MixResult := toMixResult scenario scenarioInter

/-- Input reaching a negative fine-aggregate volume, every field inside the
UI's own bounds (the spec's negative-volume recipe: high coarse-aggregate
unit weight with low specific gravities). -/
def negVolInput : MixInputs :=
  { fck := 25, std_dev := 5, exposure := .Mild, max_agg_size := 10, slump := 200,
    air_entrained := false, air_content := 0, wcm := 3 / 10, admixture := 0, fm := 3,
    sg_cement := 2, sg_fa := 12 / 5, sg_ca := 12 / 5, unit_weight_ca := 1800,
    moist_fa := 0, moist_ca := 0, construction_type := .TraditionalCastInPlace,
    early_strength_required := false, steam_curing := false }

/-- The standard scenario with a negative water-cement ratio. -/
def negWcmInput : MixInputs := { scenario with wcm := -(1 / 2) }

/-- The standard scenario with a zero water-cement ratio. -/
def zeroWcmInput : MixInputs := { scenario with wcm := 0 }

/-- The standard scenario with an unsupported aggregate size. -/
def badSizeInput : MixInputs := { scenario with max_agg_size := 30 }

/-- The standard scenario with early-strength production requested. -/
def earlyInput : MixInputs :=
  { scenario with fck := 30, std_dev := 4, early_strength_required := true }

/-- Mild exposure, precast construction, with a water-cement ratio between
the reduced and the tabulated exposure maximum. -/
def precastInput : MixInputs :=
  { scenario with
    exposure := .Mild
    construction_type := .PrecastElements
    wcm := 52 / 100 }

/-- The intermediates `precastInput` produces. -/
def precastInter : MixIntermediates := mixCore precastInput 185 (33 / 50)

/-- The standard scenario with fineness modulus 2.55 (rounds to 2.6, not a
tabulated key). -/
def scenario255 : MixInputs := { scenario with fm := 255 / 100 }

/-- Inversion of a successful run: both lookups hit, no division by zero,
and the intermediates are `mixCore` of the looked-up values. -/
theorem mixIntermediates_inv {i : MixInputs} {m : MixIntermediates}
    (h : mixIntermediates i = some m) :
    ∃ bw cv, ACI_WATER_CONTENT i.air_entrained i.max_agg_size = some bw ∧
      lookupCaVol (roundTo 1 i.fm) i.max_agg_size = some cv ∧
      ¬(i.wcm = 0 ∨ i.sg_cement = 0 ∨ i.sg_ca = 0) ∧
      m = mixCore i bw cv := by
  unfold mixIntermediates at h
  split at h
  · exact Option.noConfusion h
  · rename_i bw hw
    split at h
    · exact Option.noConfusion h
    · rename_i cv hc
      split at h
      · exact Option.noConfusion h
      · rename_i hz
        exact ⟨bw, cv, hw, hc, hz, (Option.some.inj h).symm⟩

/-- Inversion of `calculate_mix`: a returned result is the rounded
presentation of some successfully computed intermediates. -/
theorem calculate_mix_inv {i : MixInputs} {r : MixResult}
    (h : calculate_mix i = some r) :
    ∃ m, mixIntermediates i = some m ∧ r = toMixResult i m := by
  unfold calculate_mix at h
  cases hm : mixIntermediates i with
  | none => rw [hm] at h; exact Option.noConfusion h
  | some m => rw [hm] at h; exact ⟨m, rfl, (Option.some.inj h).symm⟩

/-- Rounding to one decimal cannot drop below a bound that is itself a
multiple of one tenth. -/
theorem roundTo_one_ge_int (k : ℤ) (q : ℚ) (h : (k : ℚ) / 10 ≤ q) :
    (k : ℚ) / 10 ≤ roundTo 1 q := by
  have h1 : (k : ℚ) ≤ q * 10 ^ 1 + 1 / 2 := by
    have h10 := (div_le_iff₀ (by norm_num : (0 : ℚ) < 10)).mp h
    rw [pow_one]
    linarith
  have h2 : (k : ℚ) ≤ ((q * 10 ^ 1 + 1 / 2).floor : ℚ) := by
    exact_mod_cast Rat.le_floor.mpr h1
  unfold roundTo
  rw [pow_one]
  rw [pow_one] at h2
  gcongr

/-- C1: the spec requires a negative fine-aggregate volume to abort the
invocation with an InconsistentMixError; the code has no such check.  On
`negVolInput` the absolute-volume balance yields `fa_vol = -13/240 < 0`,
yet `calculate_mix` returns a result whose Fine Aggregate entry is the
negative mass -130.0 kg per cubic metre. -/
theorem negVol_returns_negative_fa :
    (mixIntermediates negVolInput).map MixIntermediates.fa_vol = some (-(13 / 240)) ∧
    (-(13 / 240) : ℚ) < 0 ∧
    (calculate_mix negVolInput).map MixResult.fine_aggregate = some (-130) ∧
    (-130 : ℚ) < 0 := by decide!

/-- C2: the spec requires every malformed input to fail fast with no result
produced.  A zero water-cement ratio and an unsupported aggregate size do
make the invocation fail (`none`), but a negative water-cement ratio does
not: the code returns a full result, the negative `water / wcm` being
discarded by the `max` with the exposure minimum (cement = 300). -/
theorem negative_wcm_produces_result :
    (calculate_mix negWcmInput).map MixResult.cement = some 300 ∧
    (calculate_mix negWcmInput).isSome = true ∧
    calculate_mix zeroWcmInput = none ∧
    calculate_mix badSizeInput = none := by decide!

/-- C3 counterexample: with early strength required the claimed formula
fails.  For fck = 30, std_dev = 4 the claim predicts a target mean strength
of 35.36, but the code multiplies by 1.15 and returns 40.66. -/
theorem target_strength_early_cex :
    (calculate_mix earlyInput).map MixResult.target_mean_strength = some (4066 / 100) ∧
    roundTo 2 (earlyInput.fck + 134 / 100 * earlyInput.std_dev) = 3536 / 100 ∧
    (4066 / 100 : ℚ) ≠ 3536 / 100 := by decide!

/-- C3 as amended: the target mean strength is fck + 1.34 * std_dev when
early strength is not required, and that value times 1.15 when it is; the
reported figure is this quantity rounded to two decimals. -/
theorem target_strength_formula (i : MixInputs) (m : MixIntermediates)
    (h : mixIntermediates i = some m) :
    m.ft = (if i.early_strength_required
      then (i.fck + 134 / 100 * i.std_dev) * (115 / 100)
      else i.fck + 134 / 100 * i.std_dev) ∧
    (toMixResult i m).target_mean_strength = roundTo 2 m.ft := by
  obtain ⟨bw, cv, -, -, -, hm⟩ := mixIntermediates_inv h
  subst hm
  exact ⟨rfl, rfl⟩

/-- C3 witness: the amended formula at the standard scenario. -/
theorem target_strength_formula_holds :
    mixIntermediates scenario = some scenarioInter ∧
    (scenarioInter.ft = (if scenario.early_strength_required
        then (scenario.fck + 134 / 100 * scenario.std_dev) * (115 / 100)
        else scenario.fck + 134 / 100 * scenario.std_dev) ∧
      (toMixResult scenario scenarioInter).target_mean_strength =
        roundTo 2 scenarioInter.ft) :=
  ⟨by decide!, target_strength_formula scenario scenarioInter (by decide!)⟩

/-- C5: on every successful run the four absolute volumes are computed by
the stated formulas and, together with the unadjusted fine-aggregate
volume, sum to exactly one cubic metre, by construction of `fa_vol` as the
remainder. -/
theorem absolute_volume_balance (i : MixInputs) (m : MixIntermediates)
    (h : mixIntermediates i = some m) :
    m.cement_vol = m.cement / (i.sg_cement * 1000) ∧
    m.water_vol = m.water_pre / 1000 ∧
    m.air_vol = (if i.air_entrained then i.air_content / 100 else 1 / 100) ∧
    m.ca_vol_abs = m.ca_mass / (i.sg_ca * 1000) ∧
    m.cement_vol + m.water_vol + m.air_vol + m.ca_vol_abs + m.fa_vol = 1 := by
  obtain ⟨bw, cv, -, -, -, hm⟩ := mixIntermediates_inv h
  subst hm
  refine ⟨rfl, rfl, rfl, rfl, ?_⟩
  simp only [mixCore]
  ring

/-- C5 witness: the balance at the standard scenario. -/
theorem absolute_volume_balance_holds :
    mixIntermediates scenario = some scenarioInter ∧
    (scenarioInter.cement_vol = scenarioInter.cement / (scenario.sg_cement * 1000) ∧
      scenarioInter.water_vol = scenarioInter.water_pre / 1000 ∧
      scenarioInter.air_vol =
        (if scenario.air_entrained then scenario.air_content / 100 else 1 / 100) ∧
      scenarioInter.ca_vol_abs = scenarioInter.ca_mass / (scenario.sg_ca * 1000) ∧
      scenarioInter.cement_vol + scenarioInter.water_vol + scenarioInter.air_vol +
        scenarioInter.ca_vol_abs + scenarioInter.fa_vol = 1) :=
  ⟨by decide!, absolute_volume_balance scenario scenarioInter (by decide!)⟩

/-- C4: on every successful run the cement mass in the returned result is
at least the exposure class's minimum cement content, whatever the
water-cement ratio: the `max` with the table minimum is a hard floor, the
early-strength multiplier only raises it, and rounding to one decimal
cannot cross a bound that is a multiple of one tenth. -/
theorem cement_min_floor (i : MixInputs) (r : MixResult)
    (h : calculate_mix i = some r) :
    (ACI_EXPOSURE i.exposure).min_cement ≤ r.cement := by
  obtain ⟨m, hm, hr⟩ := calculate_mix_inv h
  obtain ⟨bw, cv, -, -, -, hcore⟩ := mixIntermediates_inv hm
  subst hr hcore
  have hmin : (ACI_EXPOSURE i.exposure).min_cement ≤ (mixCore i bw cv).cement := by
    have hc : (mixCore i bw cv).cement =
        (if i.early_strength_required
          then max ((mixCore i bw cv).water_pre / i.wcm)
            (ACI_EXPOSURE i.exposure).min_cement * (11 / 10)
          else max ((mixCore i bw cv).water_pre / i.wcm)
            (ACI_EXPOSURE i.exposure).min_cement) := rfl
    have hge : (ACI_EXPOSURE i.exposure).min_cement ≤
        max ((mixCore i bw cv).water_pre / i.wcm) (ACI_EXPOSURE i.exposure).min_cement :=
      le_max_right _ _
    have hpos : (0 : ℚ) ≤ (ACI_EXPOSURE i.exposure).min_cement := by
      cases i.exposure <;> norm_num [ACI_EXPOSURE]
    rw [hc]
    split
    · nlinarith
    · exact hge
  have hk : ∃ k : ℤ, (ACI_EXPOSURE i.exposure).min_cement = (k : ℚ) / 10 := by
    cases i.exposure
    · exact ⟨2500, by norm_num [ACI_EXPOSURE]⟩
    · exact ⟨3000, by norm_num [ACI_EXPOSURE]⟩
    · exact ⟨3350, by norm_num [ACI_EXPOSURE]⟩
  obtain ⟨k, hkeq⟩ := hk
  show (ACI_EXPOSURE i.exposure).min_cement ≤ roundTo 1 (mixCore i bw cv).cement
  rw [hkeq]
  exact roundTo_one_ge_int k _ (by rw [hkeq] at hmin; exact hmin)

/-- C4 witness: the floor at the standard scenario (Moderate exposure,
minimum 300, returned cement 370). -/
theorem cement_min_floor_holds :
    calculate_mix scenario = some scenarioResult ∧
    (ACI_EXPOSURE scenario.exposure).min_cement ≤ scenarioResult.cement :=
  ⟨by decide!, cement_min_floor scenario scenarioResult (by decide!)⟩

/-- C6: the spec's concrete scenario.  The run succeeds and produces
target mean strength 31.7, base water 185 (before moisture correction),
cement max(185/0.5, 300) = 370, coarse-aggregate volume fraction 0.66 and
mass 0.66 * 1600 = 1056; the resulting fine-aggregate mass and corrected
water satisfy the absolute-volume balance. -/
theorem standard_scenario_values :
    mixIntermediates scenario = some scenarioInter ∧
    calculate_mix scenario = some scenarioResult ∧
    scenarioInter.ft = 317 / 10 ∧
    scenarioInter.base_water = 185 ∧
    scenarioInter.water_pre = 185 ∧
    scenarioInter.cement = max (185 / (1 / 2)) 300 ∧
    scenarioInter.cement = 370 ∧
    scenarioInter.ca_vol = 66 / 100 ∧
    scenarioInter.ca_mass = 1056 ∧
    scenarioInter.cement_vol + scenarioInter.water_vol + scenarioInter.air_vol +
      scenarioInter.ca_vol_abs + scenarioInter.fa_vol = 1 ∧
    scenarioInter.fa_mass = scenarioInter.fa_vol * scenario.sg_fa * 1000 ∧
    scenarioResult.target_mean_strength = 317 / 10 ∧
    scenarioResult.cement = 370 := by decide!

/-- C7: a rounded fineness modulus that is not one of the tabulated keys
2.4, 2.7, 3.0 makes the coarse-aggregate lookup fall back to the 2.7 row
instead of failing; in particular fm = 2.55 with aggregate size 20 yields
the same volume fraction 0.66 as fm = 2.7. -/
theorem fm_fallback_uses_27_row (fmq : ℚ) (size : ℕ)
    (h : ¬(roundTo 1 fmq = 24 / 10 ∨ roundTo 1 fmq = 27 / 10 ∨ roundTo 1 fmq = 30 / 10)) :
    lookupCaVol (roundTo 1 fmq) size = ACI_CA_VOLUME (27 / 10) size ∧
    (mixIntermediates scenario255).map MixIntermediates.ca_vol = some (33 / 50) ∧
    (mixIntermediates scenario).map MixIntermediates.ca_vol = some (33 / 50) := by
  push_neg at h
  obtain ⟨h1, h2, h3⟩ := h
  refine ⟨?_, by decide!, by decide!⟩
  unfold lookupCaVol
  have hnone : ACI_CA_VOLUME (roundTo 1 fmq) size = none := by
    unfold ACI_CA_VOLUME
    rw [if_neg h1, if_neg h2, if_neg h3]
  rw [hnone]

/-- C7 witness: the fallback at fm = 2.55 (rounds to 2.6) and size 20. -/
theorem fm_fallback_uses_27_row_holds :
    ¬(roundTo 1 (255 / 100 : ℚ) = 24 / 10 ∨ roundTo 1 (255 / 100 : ℚ) = 27 / 10 ∨
      roundTo 1 (255 / 100 : ℚ) = 30 / 10) ∧
    (lookupCaVol (roundTo 1 (255 / 100 : ℚ)) 20 = ACI_CA_VOLUME (27 / 10) 20 ∧
      (mixIntermediates scenario255).map MixIntermediates.ca_vol = some (33 / 50) ∧
      (mixIntermediates scenario).map MixIntermediates.ca_vol = some (33 / 50)) :=
  ⟨by decide!, fm_fallback_uses_27_row (255 / 100) 20 (by decide!)⟩

/-- C8: the spec requires the fineness-modulus fallback to be observable
from the invocation's outcome; it is not.  The fallback run with fm = 2.55
returns a result identical to the exact-lookup run with fm = 2.7 (fm
influences nothing else), and the returned dictionary carries no flag, so
no caller can distinguish the two outcomes. -/
theorem fallback_not_observable :
    calculate_mix scenario255 = calculate_mix scenario ∧
    ACI_CA_VOLUME (roundTo 1 scenario255.fm) scenario255.max_agg_size = none ∧
    (ACI_CA_VOLUME (roundTo 1 scenario.fm) scenario.max_agg_size).isSome = true := by
  decide!

/-- C9 counterexample: with Mild exposure (table maximum 0.55) and precast
construction, a ratio of 0.52 is advised against although it does not
exceed the exposure table's maximum: the code first subtracts the
construction type's reduction 0.05. -/
theorem advisory_threshold_cex :
    (mixIntermediates precastInput).map MixIntermediates.advisory = some true ∧
    precastInput.wcm ≤ (ACI_EXPOSURE precastInput.exposure).max_wcm := by decide!

/-- C9 as amended: the advisory fires exactly when the caller-supplied
ratio exceeds the exposure table's maximum minus the construction type's
reduction (when present); the calculation proceeds either way, the cement
content still being derived from the caller-supplied ratio alone. -/
theorem advisory_iff_effective_max (i : MixInputs) (m : MixIntermediates)
    (h : mixIntermediates i = some m) :
    (m.advisory = true ↔ i.wcm > effectiveMaxWcm i) ∧
    m.cement = (if i.early_strength_required
      then max (m.water_pre / i.wcm) (ACI_EXPOSURE i.exposure).min_cement * (11 / 10)
      else max (m.water_pre / i.wcm) (ACI_EXPOSURE i.exposure).min_cement) := by
  obtain ⟨bw, cv, -, -, -, hm⟩ := mixIntermediates_inv h
  subst hm
  exact ⟨⟨of_decide_eq_true, decide_eq_true⟩, rfl⟩

/-- C9 witness: the amended advisory condition at `precastInput`. -/
theorem advisory_iff_effective_max_holds :
    mixIntermediates precastInput = some precastInter ∧
    ((precastInter.advisory = true ↔ precastInput.wcm > effectiveMaxWcm precastInput) ∧
      precastInter.cement = (if precastInput.early_strength_required
        then max (precastInter.water_pre / precastInput.wcm)
          (ACI_EXPOSURE precastInput.exposure).min_cement * (11 / 10)
        else max (precastInter.water_pre / precastInput.wcm)
          (ACI_EXPOSURE precastInput.exposure).min_cement)) :=
  ⟨by decide!, advisory_iff_effective_max precastInput precastInter (by decide!)⟩

/-- C10: with air entrainment off, the Air Content entry of the result is
the caller-supplied air content rounded to one decimal, while the volume
balance of the same run assumed the fixed air volume 0.01: the reported
air content does not reflect the air fraction actually used. -/
theorem air_content_reported_not_assumed (i : MixInputs) (m : MixIntermediates)
    (h : mixIntermediates i = some m) (hae : i.air_entrained = false) :
    m.air_vol = 1 / 100 ∧
    (toMixResult i m).air_content = roundTo 1 i.air_content := by
  obtain ⟨bw, cv, -, -, -, hm⟩ := mixIntermediates_inv h
  subst hm
  refine ⟨?_, rfl⟩
  show (if i.air_entrained = true then i.air_content / 100 else 1 / 100) = 1 / 100
  rw [hae]
  simp

/-- C10 witness: the standard scenario has air entrainment off and caller
air content 0; the result reports 0.0 while the balance used 0.01. -/
theorem air_content_reported_not_assumed_holds :
    mixIntermediates scenario = some scenarioInter ∧
    scenario.air_entrained = false ∧
    (scenarioInter.air_vol = 1 / 100 ∧
      (toMixResult scenario scenarioInter).air_content = roundTo 1 scenario.air_content) :=
  ⟨by decide!, by decide!,
    air_content_reported_not_assumed scenario scenarioInter (by decide!) (by decide!)⟩
